import Mathlib

/-!
Shallow embedding of the chatcanvas streaming completion pipeline:
the Zod `ChatSchema` validator (src/lib/llm/types.ts), the OpenAI and
Anthropic provider adapters (src/lib/llm/openai.ts, src/lib/llm/anthropic.ts),
the provider selector (src/lib/llm/index.ts), the chat repository
(src/lib/db/chatRepo.ts), and the `/api/chat` route handler `POST` with its
`collectAndSaveResponse` persistence collector.

Streams are embedded as the finite list of chunks they deliver; TypeScript
numbers used as token counters are embedded as `Nat`, `temperature` as `ℚ`;
`throw`-based failure is embedded as `Except`; the JavaScript truthiness
checks that the source performs on optional strings are modelled explicitly.
-/

namespace ChatCanvas

/-- Message roles, per `MessageRoleSchema = z.enum(["user","assistant","system"])`. -/
inductive Role where
  | user
  | assistant
  | system
deriving DecidableEq, Repr

/-- Normalized finish reasons, per the `finishReason` union in types.ts. -/
inductive FinishReason where
  | stop
  | length
  | content_filter
  | tool_calls
deriving DecidableEq, Repr

/-- A validated message, per `MessageSchema` in types.ts. -/
structure Message where
  role : Role
  content : String
deriving DecidableEq, Repr

/-- A raw inbound message before validation: the role is an arbitrary string. -/
structure MsgInput where
  role : String
  content : String
deriving DecidableEq, Repr

/-- Raw input to `ChatSchema.parse` (the `z.input` side: optional fields absent
or present, no defaults applied yet). -/
structure ChatInput where
  system : Option String := none
  messages : List MsgInput
  stream : Option Bool := none
  temperature : Option ℚ := none
  maxTokens : Option Int := none
  model : Option String := none
deriving DecidableEq, Repr

/-- Parsed `ChatRequest` (the `z.infer` side of `ChatSchema`): roles refined,
`stream` defaulted to `false`, `temperature` defaulted to `0.7`. -/
structure ChatRequest where
  system : Option String
  messages : List Message
  stream : Bool
  temperature : ℚ
  maxTokens : Option Int
  model : Option String
deriving DecidableEq, Repr

/-- Field-level issues a `ChatSchema.parse` failure reports (the ZodError
detail list). -/
inductive ZodIssue where
  | emptyMessages
  | invalidRole (index : Nat) (role : String)
  | temperatureOutOfRange (t : ℚ)
  | maxTokensNotPositive (m : Int)
deriving DecidableEq, Repr

/-- Parse one role string against the `z.enum` of recognized roles. -/
def parseRole (s : String) : Option Role :=
  if s = "user" then some Role.user
  else if s = "assistant" then some Role.assistant
  else if s = "system" then some Role.system
  else none

/-- Render a `Role` back to its wire string. -/
def Role.toString : Role → String
  | Role.user => "user"
  | Role.assistant => "assistant"
  | Role.system => "system"

/-- Parse a message list elementwise; `none` when some role is unrecognized. -/
def parseMessages : List MsgInput → Option (List Message)
  | [] => some []
  | m :: ms =>
    match parseRole m.role, parseMessages ms with
    | some r, some rest => some ({ role := r, content := m.content } :: rest)
    | _, _ => none

/-- All issues `ChatSchema.parse` reports for a given input: `messages` must be
non-empty with recognized roles, `temperature` (when present) within `[0, 2]`,
`maxTokens` (when present) positive. -/
def chatIssues (i : ChatInput) : List ZodIssue :=
  (if i.messages.isEmpty then [ZodIssue.emptyMessages] else []) ++
  (i.messages.enum.filterMap fun p =>
    if parseRole p.2.role = none then some (ZodIssue.invalidRole p.1 p.2.role)
    else none) ++
  (match i.temperature with
   | some t => if t < 0 ∨ 2 < t then [ZodIssue.temperatureOutOfRange t] else []
   | none => []) ++
  (match i.maxTokens with
   | some m => if m ≤ 0 then [ZodIssue.maxTokensNotPositive m] else []
   | none => [])

/-- `ChatSchema.parse`: succeeds exactly when no issue is found, applying the
schema defaults `stream := false` and `temperature := 0.7`; fails with the
collected issue list (the thrown ZodError) otherwise. -/
def chatSchemaParse (i : ChatInput) : Except (List ZodIssue) ChatRequest :=
  match parseMessages i.messages, chatIssues i with
  | some msgs, [] =>
    Except.ok
      { system := i.system
        messages := msgs
        stream := i.stream.getD false
        temperature := i.temperature.getD (7 / 10)
        maxTokens := i.maxTokens
        model := i.model }
  | _, issues => Except.error issues

lemma parseRole_toString (r : Role) : parseRole r.toString = some r := by
  cases r <;> rfl

lemma parseMessages_isSome_iff (ms : List MsgInput) :
    (parseMessages ms).isSome ↔ ∀ m ∈ ms, parseRole m.role ≠ none := by
  induction ms with
  | nil => simp [parseMessages]
  | cons m ms ih =>
    simp only [parseMessages, List.mem_cons]
    cases hr : parseRole m.role with
    | none =>
      simp only [Option.isSome]
      constructor
      · intro h; cases hp : parseMessages ms <;> simp [hp] at h
      · intro h; exact absurd hr (h m (Or.inl rfl))
    | some r =>
      cases hp : parseMessages ms with
      | none =>
        simp only [Option.isSome]
        constructor
        · intro h; cases h
        · intro h
          have := (ih.mpr fun x hx => h x (Or.inr hx))
          simp [hp] at this
      | some rest =>
        simp only [Option.isSome_some, true_iff]
        intro x hx
        rcases hx with rfl | hx
        · simp [hr]
        · exact (ih.mp (by simp [hp])) x hx

lemma chatIssues_nil_iff (i : ChatInput) :
    chatIssues i = [] ↔
      (¬ i.messages.isEmpty = true ∧
       (∀ m ∈ i.messages, parseRole m.role ≠ none) ∧
       (∀ t, i.temperature = some t → 0 ≤ t ∧ t ≤ 2) ∧
       (∀ m, i.maxTokens = some m → 0 < m)) := by
  unfold chatIssues
  constructor
  · intro h
    rw [List.append_eq_nil, List.append_eq_nil, List.append_eq_nil] at h
    obtain ⟨⟨⟨h1, h2⟩, h3⟩, h4⟩ := h
    refine ⟨?_, ?_, ?_, ?_⟩
    · intro hemp; simp [hemp] at h1
    · intro m hm hnone
      obtain ⟨k, hk⟩ := List.get_of_mem hm
      have hmem : (k.1, m) ∈ i.messages.enum := by
        rw [List.mk_mem_enum_iff_getElem?]
        simp [← hk, List.getElem?_eq_getElem]
      have := List.filterMap_eq_nil_iff.mp h2 _ hmem
      simp [hnone] at this
    · intro t ht
      rw [ht] at h3
      by_contra hcon
      push_neg at hcon
      have : t < 0 ∨ 2 < t := by
        by_cases h0 : 0 ≤ t
        · exact Or.inr (hcon h0)
        · exact Or.inl (lt_of_not_le h0)
      simp [this] at h3
    · intro m hm
      rw [hm] at h4
      by_contra hcon
      push_neg at hcon
      simp [hcon] at h4
  · intro ⟨h1, h2, h3, h4⟩
    rw [List.append_eq_nil, List.append_eq_nil, List.append_eq_nil]
    refine ⟨⟨⟨?_, ?_⟩, ?_⟩, ?_⟩
    · simp [h1]
    · rw [List.filterMap_eq_nil_iff]
      intro p hp
      have hmem := List.snd_mem_of_mem_enum hp
      simp [h2 p.2 hmem]
    · cases ht : i.temperature with
      | none => simp
      | some t =>
        have h := h3 t ht
        have : ¬ (t < 0 ∨ 2 < t) := by
          push_neg
          exact h
        simp [this]
    · cases hm : i.maxTokens with
      | none => simp
      | some m =>
        have := h4 m hm
        simp [not_le.mpr this]

lemma chatSchemaParse_ok_iff (i : ChatInput) :
    (∃ r, chatSchemaParse i = Except.ok r) ↔ chatIssues i = [] := by
  constructor
  · intro ⟨r, hr⟩
    unfold chatSchemaParse at hr
    cases hpm : parseMessages i.messages with
    | none => simp [hpm] at hr
    | some msgs =>
      cases hiss : chatIssues i with
      | nil => rfl
      | cons a l => simp [hpm, hiss] at hr
  · intro h
    have hroles : ∀ m ∈ i.messages, parseRole m.role ≠ none :=
      ((chatIssues_nil_iff i).mp h).2.1
    have hpm : (parseMessages i.messages).isSome :=
      (parseMessages_isSome_iff i.messages).mpr hroles
    obtain ⟨msgs, hmsgs⟩ := Option.isSome_iff_exists.mp hpm
    exact ⟨_, by unfold chatSchemaParse; rw [hmsgs, h]⟩

lemma parseRole_ne_none_iff (s : String) :
    parseRole s ≠ none ↔ (s = "user" ∨ s = "assistant" ∨ s = "system") := by
  unfold parseRole
  by_cases h1 : s = "user" <;> by_cases h2 : s = "assistant" <;>
    by_cases h3 : s = "system" <;> simp [h1, h2, h3]

/-- C9: `ChatSchema.parse` succeeds iff `messages` is non-empty, every role is
one of user/assistant/system, `temperature` (when present) lies in `[0, 2]`
and `maxTokens` (when present) is positive; on success omitted `temperature`
defaults to `0.7` (and omitted `stream` to `false`, present values are kept);
on any violation it fails with a ZodError carrying a non-empty field-level
issue list. -/
theorem chatSchema_validator_correct (i : ChatInput) :
    ((∃ r, chatSchemaParse i = Except.ok r) ↔
      (i.messages ≠ [] ∧
       (∀ m ∈ i.messages,
         m.role = "user" ∨ m.role = "assistant" ∨ m.role = "system") ∧
       (∀ t, i.temperature = some t → 0 ≤ t ∧ t ≤ 2) ∧
       (∀ n, i.maxTokens = some n → 0 < n)))
    ∧ (∀ r, chatSchemaParse i = Except.ok r →
        (i.temperature = none → r.temperature = 7 / 10) ∧
        (∀ t, i.temperature = some t → r.temperature = t) ∧
        (i.stream = none → r.stream = false) ∧
        r.maxTokens = i.maxTokens)
    ∧ (∀ e, chatSchemaParse i = Except.error e → e ≠ []) := by
  refine ⟨?_, ?_, ?_⟩
  · rw [chatSchemaParse_ok_iff, chatIssues_nil_iff]
    constructor
    · intro ⟨h1, h2, h3, h4⟩
      refine ⟨by simpa using h1, ?_, h3, h4⟩
      intro m hm
      exact (parseRole_ne_none_iff m.role).mp (h2 m hm)
    · intro ⟨h1, h2, h3, h4⟩
      refine ⟨by simpa using h1, ?_, h3, h4⟩
      intro m hm
      exact (parseRole_ne_none_iff m.role).mpr (h2 m hm)
  · intro r hr
    unfold chatSchemaParse at hr
    cases hpm : parseMessages i.messages with
    | none => simp [hpm] at hr
    | some msgs =>
      cases hiss : chatIssues i with
      | cons a l => simp [hpm, hiss] at hr
      | nil =>
        rw [hpm, hiss] at hr
        cases hr
        refine ⟨?_, ?_, ?_, rfl⟩
        · intro h; simp [h]
        · intro t ht; simp [ht]
        · intro h; simp [h]
  · intro e he hnil
    subst hnil
    unfold chatSchemaParse at he
    cases hpm : parseMessages i.messages with
    | some msgs =>
      cases hiss : chatIssues i with
      | nil => simp [hpm, hiss] at he
      | cons a l =>
        rw [hpm, hiss] at he
        cases he
    | none =>
      have hiss : chatIssues i ≠ [] := by
        intro h
        have hroles := ((chatIssues_nil_iff i).mp h).2.1
        have := (parseMessages_isSome_iff i.messages).mpr hroles
        simp [hpm] at this
      rw [hpm] at he
      cases hc : chatIssues i with
      | nil => exact hiss hc
      | cons a l =>
        rw [hc] at he
        cases he

/-- Witness for C9 at concrete inputs: a one-user-message request parses
successfully. -/
theorem chatSchema_validator_correct_witness :
    ∃ r, chatSchemaParse { messages := [{ role := "user", content := "hi" }] }
      = Except.ok r :=
  (chatSchema_validator_correct
    { messages := [{ role := "user", content := "hi" }] }).1.mpr
    ⟨by simp, by intro m hm; simp at hm; simp [hm], by simp, by simp⟩

/-- Token usage shape from types.ts. -/
structure TokenUsage where
  promptTokens : Nat
  completionTokens : Nat
  totalTokens : Nat
deriving DecidableEq, Repr

/-- One streaming chunk, per the `StreamChunk` interface in types.ts. -/
structure StreamChunk where
  content : String
  done : Bool
  model : Option String := none
  usage : Option TokenUsage := none
  finishReason : Option FinishReason := none
deriving DecidableEq, Repr

/-- Non-streaming response shape, per `ChatResponse` in types.ts. -/
structure ChatResponse where
  content : String
  model : String
  usage : TokenUsage
  finishReason : Option FinishReason
deriving DecidableEq, Repr

/-- The error taxonomy thrown across the pipeline: `zodError` embeds a thrown
ZodError, `providerError` embeds `LLMProviderError`, `apiError` embeds
`LLMAPIError` with its `provider` and optional `statusCode` fields. -/
inductive LLMError where
  | zodError (issues : List ZodIssue)
  | providerError (message : String)
  | apiError (message : String) (provider : String) (statusCode : Option Nat)
deriving DecidableEq, Repr

/-- Whether an error is the `LLMProviderError` configuration-error class. -/
def LLMError.isProviderError : LLMError → Bool
  | LLMError.providerError _ => true
  | _ => false

/-- JavaScript truthiness of an optional string (`undefined` and `""` are
falsy). -/
def strTruthy : Option String → Bool
  | some s => decide (s ≠ "")
  | none => false

/-- JavaScript `a || d` on an optional string. -/
def strOr (s : Option String) (d : String) : String :=
  if strTruthy s then s.getD "" else d

/-- The environment variables the provider layer reads. -/
structure Env where
  LLM_PROVIDER : Option String := none
  OPENAI_API_KEY : Option String := none
  OPENAI_MODEL : Option String := none
  ANTHROPIC_API_KEY : Option String := none
  ANTHROPIC_MODEL : Option String := none
deriving DecidableEq, Repr

/-- Backend usage block as reported by the OpenAI API. -/
structure OpenAIUsage where
  prompt_tokens : Nat
  completion_tokens : Nat
  total_tokens : Nat
deriving DecidableEq, Repr

/-- Convert a backend usage block verbatim, as both OpenAI code paths do. -/
def OpenAIUsage.toTokenUsage (u : OpenAIUsage) : TokenUsage :=
  { promptTokens := u.prompt_tokens
    completionTokens := u.completion_tokens
    totalTokens := u.total_tokens }

/-- The `delta` part of a backend streaming choice. -/
structure OpenAIDelta where
  content : Option String := none
deriving DecidableEq, Repr

/-- `chunk.choices[0]` of a backend streaming chunk. -/
structure OpenAIStreamChoice where
  delta : OpenAIDelta
  finish_reason : Option FinishReason := none
deriving DecidableEq, Repr

/-- One backend streaming chunk; `choice = none` models an empty `choices`
array (e.g. the trailing usage-only chunk sent under
`stream_options.include_usage`). -/
structure OpenAIStreamChunk where
  choice : Option OpenAIStreamChoice := none
  model : String
  usage : Option OpenAIUsage := none
deriving DecidableEq, Repr

/-- The StreamChunks `OpenAIProvider.chatStream` enqueues for one backend
chunk: a content chunk when `delta.content` is truthy (non-empty), then a
`done` chunk carrying the backend usage verbatim (or no usage) when
`finish_reason` is set. -/
def openAIChunkOutput (c : OpenAIStreamChunk) : List StreamChunk :=
  (match c.choice with
   | some ch =>
     match ch.delta.content with
     | some s =>
       if s = "" then []
       else [{ content := s, done := false, model := some c.model }]
     | none => []
   | none => []) ++
  (match c.choice with
   | some ch =>
     match ch.finish_reason with
     | some fr =>
       [{ content := "", done := true, model := some c.model
          finishReason := some fr
          usage := c.usage.map OpenAIUsage.toTokenUsage }]
     | none => []
   | none => [])

/-- Full normalized stream `OpenAIProvider.chatStream` emits for a backend
chunk sequence. -/
def openAIStreamOutput (chunks : List OpenAIStreamChunk) : List StreamChunk :=
  chunks.flatMap openAIChunkOutput

/-- OpenAI provider state after the constructor ran against `env`: the client
exists iff the API key is truthy. -/
structure OpenAIProviderState where
  client : Bool
  defaultModel : String
deriving DecidableEq, Repr

/-- `new OpenAIProvider()` under environment `env`. -/
def OpenAIProvider.init (env : Env) : OpenAIProviderState :=
  { client := strTruthy env.OPENAI_API_KEY
    defaultModel := strOr env.OPENAI_MODEL "gpt-4o-mini" }

/-- `OpenAIProvider.isConfigured`. -/
def OpenAIProvider.isConfigured (st : OpenAIProviderState) : Bool := st.client

/-- One element of `response.choices` in a backend non-streaming response. -/
structure OpenAIChatChoice where
  message_content : Option String := none
  finish_reason : Option FinishReason := none
deriving DecidableEq, Repr

/-- Backend non-streaming response body. -/
structure OpenAIChatResponse where
  choices : List OpenAIChatChoice
  model : String
  usage : Option OpenAIUsage := none
deriving DecidableEq, Repr

/-- `OpenAIProvider.chat`: throws `LLMAPIError` when no client is configured,
then validates with `ChatSchema.parse`, then performs the network call
(modelled by the `backend` response; the returned `Bool` records whether the
network was reached). -/
def OpenAIProvider.chat (st : OpenAIProviderState) (input : ChatInput)
    (backend : OpenAIChatResponse) : Except LLMError ChatResponse × Bool :=
  if st.client = false then
    (Except.error (LLMError.apiError
      "OpenAI API key not configured. Set OPENAI_API_KEY environment variable."
      "OpenAI" none), false)
  else
    match chatSchemaParse input with
    | Except.error issues => (Except.error (LLMError.zodError issues), false)
    | Except.ok _ =>
      match backend.choices.head? with
      | none =>
        (Except.error (LLMError.apiError "No response from OpenAI" "OpenAI" none),
         true)
      | some choice =>
        (Except.ok
          { content := choice.message_content.getD ""
            model := backend.model
            usage :=
              { promptTokens := (backend.usage.map OpenAIUsage.prompt_tokens).getD 0
                completionTokens :=
                  (backend.usage.map OpenAIUsage.completion_tokens).getD 0
                totalTokens := (backend.usage.map OpenAIUsage.total_tokens).getD 0 }
            finishReason := choice.finish_reason }, true)

/-- `OpenAIProvider.chatStream`: throws `LLMAPIError` when no client is
configured, then validates, then drives the backend stream. -/
def OpenAIProvider.chatStream (st : OpenAIProviderState) (input : ChatInput)
    (backend : List OpenAIStreamChunk) :
    Except LLMError (List StreamChunk) × Bool :=
  if st.client = false then
    (Except.error (LLMError.apiError
      "OpenAI API key not configured. Set OPENAI_API_KEY environment variable."
      "OpenAI" none), false)
  else
    match chatSchemaParse input with
    | Except.error issues => (Except.error (LLMError.zodError issues), false)
    | Except.ok _ => (Except.ok (openAIStreamOutput backend), true)

/-- `AnthropicProvider.mapStopReason`. -/
def mapStopReason : Option String → Option FinishReason
  | none => none
  | some r =>
    if r = "end_turn" then some FinishReason.stop
    else if r = "max_tokens" then some FinishReason.length
    else if r = "stop_sequence" then some FinishReason.stop
    else none

/-- The SSE events `AnthropicProvider.chatStream` iterates over. -/
inductive AnthropicEvent where
  | contentTextDelta (text : String)
  | contentOtherDelta
  | messageDelta (output_tokens : Option Nat)
  | messageStop
  | otherEvent
deriving DecidableEq, Repr

/-- The final message `stream.finalMessage()` resolves to at `message_stop`. -/
structure AnthropicFinalMessage where
  model : String
  input_tokens : Nat
  output_tokens : Nat
  stop_reason : Option String := none
deriving DecidableEq, Repr

/-- The StreamChunks `AnthropicProvider.chatStream` enqueues for one SSE
event: text deltas become content chunks; `message_stop` enqueues the `done`
chunk with usage recomputed from the final message
(`totalTokens = input_tokens + output_tokens`); `message_delta` only updates
a local variable and enqueues nothing. -/
def anthropicEventOutput (fm : AnthropicFinalMessage) :
    AnthropicEvent → List StreamChunk
  | AnthropicEvent.contentTextDelta t => [{ content := t, done := false }]
  | AnthropicEvent.messageStop =>
    [{ content := "", done := true, model := some fm.model
       usage := some
         { promptTokens := fm.input_tokens
           completionTokens := fm.output_tokens
           totalTokens := fm.input_tokens + fm.output_tokens }
       finishReason := mapStopReason fm.stop_reason }]
  | _ => []

/-- Full normalized stream `AnthropicProvider.chatStream` emits. -/
def anthropicStreamOutput (events : List AnthropicEvent)
    (fm : AnthropicFinalMessage) : List StreamChunk :=
  events.flatMap (anthropicEventOutput fm)

/-- Anthropic provider state after the constructor:
`apiKey = process.env.ANTHROPIC_API_KEY || null`, client built iff truthy. -/
structure AnthropicProviderState where
  apiKey : Option String
  client : Bool
  defaultModel : String
deriving DecidableEq, Repr

/-- `new AnthropicProvider()` under environment `env`. -/
def AnthropicProvider.init (env : Env) : AnthropicProviderState :=
  { apiKey := if strTruthy env.ANTHROPIC_API_KEY then env.ANTHROPIC_API_KEY else none
    client := strTruthy env.ANTHROPIC_API_KEY
    defaultModel := strOr env.ANTHROPIC_MODEL "claude-3-5-sonnet-20241022" }

/-- `AnthropicProvider.isConfigured`. -/
def AnthropicProvider.isConfigured (st : AnthropicProviderState) : Bool :=
  st.apiKey.isSome && st.client

/-- A content block of a backend non-streaming Anthropic response. -/
inductive AnthropicContentBlock where
  | textBlock (text : String)
  | otherBlock
deriving DecidableEq, Repr

/-- Backend non-streaming Anthropic response body. -/
structure AnthropicChatResponse where
  content : List AnthropicContentBlock
  model : String
  input_tokens : Nat
  output_tokens : Nat
  stop_reason : Option String := none
deriving DecidableEq, Repr

/-- `AnthropicProvider.chat`: throws `LLMAPIError` when no client is
configured, then validates, then calls the backend; usage totals are
recomputed as `input_tokens + output_tokens`. -/
def AnthropicProvider.chat (st : AnthropicProviderState) (input : ChatInput)
    (backend : AnthropicChatResponse) : Except LLMError ChatResponse × Bool :=
  if st.client = false then
    (Except.error (LLMError.apiError
      "Anthropic API key not configured. Set ANTHROPIC_API_KEY environment variable."
      "Anthropic" none), false)
  else
    match chatSchemaParse input with
    | Except.error issues => (Except.error (LLMError.zodError issues), false)
    | Except.ok _ =>
      (Except.ok
        { content := String.join (backend.content.filterMap fun b =>
            match b with
            | AnthropicContentBlock.textBlock t => some t
            | AnthropicContentBlock.otherBlock => none)
          model := backend.model
          usage :=
            { promptTokens := backend.input_tokens
              completionTokens := backend.output_tokens
              totalTokens := backend.input_tokens + backend.output_tokens }
          finishReason := mapStopReason backend.stop_reason }, true)

/-- `AnthropicProvider.chatStream`: throws `LLMAPIError` when no client is
configured, then validates, then drives the SSE stream. -/
def AnthropicProvider.chatStream (st : AnthropicProviderState) (input : ChatInput)
    (events : List AnthropicEvent) (fm : AnthropicFinalMessage) :
    Except LLMError (List StreamChunk) × Bool :=
  if st.client = false then
    (Except.error (LLMError.apiError
      "Anthropic API key not configured. Set ANTHROPIC_API_KEY environment variable."
      "Anthropic" none), false)
  else
    match chatSchemaParse input with
    | Except.error issues => (Except.error (LLMError.zodError issues), false)
    | Except.ok _ => (Except.ok (anthropicStreamOutput events fm), true)

/-- The adapter chosen by the selector. -/
inductive Provider where
  | openai (st : OpenAIProviderState)
  | anthropic (st : AnthropicProviderState)
deriving DecidableEq, Repr

/-- `provider.isConfigured()` dispatch. -/
def Provider.isConfigured : Provider → Bool
  | Provider.openai st => OpenAIProvider.isConfigured st
  | Provider.anthropic st => AnthropicProvider.isConfigured st

/-- `provider.getName()` dispatch. -/
def Provider.getName : Provider → String
  | Provider.openai _ => "OpenAI"
  | Provider.anthropic _ => "Anthropic"

/-- JavaScript `toLowerCase()` on the provider name, as a structural map over
the characters. -/
def jsToLower (s : String) : String :=
  String.mk (s.data.map Char.toLower)

/-- `getProvider()` from src/lib/llm/index.ts: resolve
`LLM_PROVIDER || "openai"` (lowercased), instantiate the adapter, fail with
`LLMProviderError` on an unknown name or an unconfigured adapter. -/
def getProvider (env : Env) : Except LLMError Provider :=
  let providerType := jsToLower (strOr env.LLM_PROVIDER "openai")
  match (if providerType = "openai" then some (Provider.openai (OpenAIProvider.init env))
         else if providerType = "anthropic" then
           some (Provider.anthropic (AnthropicProvider.init env))
         else none) with
  | none =>
    Except.error (LLMError.providerError
      ("Invalid LLM_PROVIDER: " ++ providerType ++ ". Must be one of: openai, anthropic"))
  | some p =>
    if p.isConfigured then Except.ok p
    else
      Except.error (LLMError.providerError
        (p.getName ++ " provider is not configured. Please set the required API key environment variable."))

/-- C1 counterexample: when the OpenAI backend delivers its usage block in a
trailing chunk with an empty `choices` array (the documented
`stream_options.include_usage` behaviour) instead of on the chunk bearing the
finish reason, the single emitted chunk with `done = true` carries no usage at
all, refuting the claim that every provider's final chunk carries complete
token usage. -/
theorem c1_openai_final_usage_counterexample :
    (openAIStreamOutput
      [{ choice := some { delta := { content := some "Hi" } }
         model := "gpt-4o-mini" },
       { choice := some { delta := {}, finish_reason := some FinishReason.stop }
         model := "gpt-4o-mini" },
       { choice := none, model := "gpt-4o-mini"
         usage := some { prompt_tokens := 1, completion_tokens := 2, total_tokens := 3 } }]
     ).filter (fun c => c.done)
    = [{ content := "", done := true, model := some "gpt-4o-mini"
         usage := none, finishReason := some FinishReason.stop }] := by
  rfl

/-- C1 amended: the Anthropic adapter's `done` chunk always carries usage
satisfying `totalTokens = promptTokens + completionTokens` (it recomputes the
sum from the final message); the OpenAI adapter copies the backend usage of
the chunk bearing the finish reason verbatim, so its `done` chunks carry
consistent usage only when every backend chunk with a finish reason carries a
usage block whose total already equals prompt + completion. -/
theorem c1_final_chunk_usage_amended :
    (∀ (events : List AnthropicEvent) (fm : AnthropicFinalMessage),
      ∀ c ∈ anthropicStreamOutput events fm, c.done = true →
        ∃ u, c.usage = some u ∧
          u.totalTokens = u.promptTokens + u.completionTokens)
    ∧ (∀ (chunks : List OpenAIStreamChunk),
        (∀ ch ∈ chunks, ∀ choice, ch.choice = some choice →
          choice.finish_reason ≠ none →
          ∃ u, ch.usage = some u ∧
            u.total_tokens = u.prompt_tokens + u.completion_tokens) →
        ∀ c ∈ openAIStreamOutput chunks, c.done = true →
          ∃ u, c.usage = some u ∧
            u.totalTokens = u.promptTokens + u.completionTokens) := by
  constructor
  · intro events fm c hc hdone
    rw [anthropicStreamOutput, List.mem_flatMap] at hc
    obtain ⟨e, _, hce⟩ := hc
    cases e with
    | contentTextDelta t =>
      simp [anthropicEventOutput] at hce
      rw [hce] at hdone
      cases hdone
    | messageStop =>
      simp [anthropicEventOutput] at hce
      rw [hce]
      exact ⟨_, rfl, rfl⟩
    | contentOtherDelta => simp [anthropicEventOutput] at hce
    | messageDelta n => simp [anthropicEventOutput] at hce
    | otherEvent => simp [anthropicEventOutput] at hce
  · intro chunks hbk c hc hdone
    rw [openAIStreamOutput, List.mem_flatMap] at hc
    obtain ⟨ch, hch, hcch⟩ := hc
    rw [openAIChunkOutput, List.mem_append] at hcch
    rcases hcch with hcc | hcc
    · exfalso
      cases hchoice : ch.choice with
      | none => simp [hchoice] at hcc
      | some choice =>
        cases hcont : choice.delta.content with
        | none => simp [hchoice, hcont] at hcc
        | some s =>
          by_cases hs : s = ""
          · simp [hchoice, hcont, hs] at hcc
          · simp [hchoice, hcont, hs] at hcc
            rw [hcc] at hdone
            cases hdone
    · cases hchoice : ch.choice with
      | none => simp [hchoice] at hcc
      | some choice =>
        cases hfr : choice.finish_reason with
        | none => simp [hchoice, hfr] at hcc
        | some fr =>
          simp [hchoice, hfr] at hcc
          obtain ⟨u, hu, hsum⟩ := hbk ch hch choice hchoice (by simp [hfr])
          rw [hcc, hu]
          exact ⟨u.toTokenUsage, rfl, hsum⟩

/-- Witness for C1 amended: a concrete `message_stop` final chunk carries
usage with a consistent total. -/
theorem c1_final_chunk_usage_amended_witness :
    ∃ u, StreamChunk.usage
      { content := "", done := true, model := some "claude-3-5-sonnet-20241022"
        usage := some { promptTokens := 3, completionTokens := 4, totalTokens := 7 }
        finishReason := some FinishReason.stop } = some u ∧
      u.totalTokens = u.promptTokens + u.completionTokens :=
  c1_final_chunk_usage_amended.1 [AnthropicEvent.messageStop]
    { model := "claude-3-5-sonnet-20241022", input_tokens := 3, output_tokens := 4
      stop_reason := some "end_turn" }
    _ (by decide) rfl

/-- C3 counterexample: an unconfigured OpenAI adapter fails its `chat` call
with an `LLMAPIError` (the API-error class), not with the configuration-error
class `LLMProviderError`; the network flag stays `false`. -/
theorem c3_unconfigured_error_kind_counterexample :
    (OpenAIProvider.chat { client := false, defaultModel := "gpt-4o-mini" }
      { messages := [{ role := "user", content := "Hello" }] }
      { choices := [], model := "gpt-4o-mini" })
    = (Except.error (LLMError.apiError
        "OpenAI API key not configured. Set OPENAI_API_KEY environment variable."
        "OpenAI" none), false)
    ∧ (LLMError.apiError
        "OpenAI API key not configured. Set OPENAI_API_KEY environment variable."
        "OpenAI" none).isProviderError = false := by
  exact ⟨rfl, rfl⟩

/-- C3 amended: when an adapter holds no client (no credential), both `chat`
and `chatStream` of both providers fail immediately — before any network call
(flag `false`) — but with `LLMAPIError` naming the provider and carrying no
status code; the configuration-error class `LLMProviderError` is raised by
the selector `getProvider` when the resolved adapter reports itself
unconfigured. -/
theorem c3_unconfigured_fail_fast_amended :
    (∀ (st : OpenAIProviderState) (input : ChatInput) (bk : OpenAIChatResponse),
      st.client = false →
      OpenAIProvider.chat st input bk =
        (Except.error (LLMError.apiError
          "OpenAI API key not configured. Set OPENAI_API_KEY environment variable."
          "OpenAI" none), false))
    ∧ (∀ (st : OpenAIProviderState) (input : ChatInput)
        (bk : List OpenAIStreamChunk), st.client = false →
        OpenAIProvider.chatStream st input bk =
          (Except.error (LLMError.apiError
            "OpenAI API key not configured. Set OPENAI_API_KEY environment variable."
            "OpenAI" none), false))
    ∧ (∀ (st : AnthropicProviderState) (input : ChatInput)
        (bk : AnthropicChatResponse), st.client = false →
        AnthropicProvider.chat st input bk =
          (Except.error (LLMError.apiError
            "Anthropic API key not configured. Set ANTHROPIC_API_KEY environment variable."
            "Anthropic" none), false))
    ∧ (∀ (st : AnthropicProviderState) (input : ChatInput)
        (events : List AnthropicEvent) (fm : AnthropicFinalMessage),
        st.client = false →
        AnthropicProvider.chatStream st input events fm =
          (Except.error (LLMError.apiError
            "Anthropic API key not configured. Set ANTHROPIC_API_KEY environment variable."
            "Anthropic" none), false))
    ∧ (∀ env : Env, strTruthy env.OPENAI_API_KEY = false →
        strTruthy env.LLM_PROVIDER = false →
        getProvider env = Except.error (LLMError.providerError
          "OpenAI provider is not configured. Please set the required API key environment variable.")) := by
  refine ⟨?_, ?_, ?_, ?_, ?_⟩
  · intro st input bk h; rw [OpenAIProvider.chat, if_pos h]
  · intro st input bk h; rw [OpenAIProvider.chatStream, if_pos h]
  · intro st input bk h; rw [AnthropicProvider.chat, if_pos h]
  · intro st input events fm h; rw [AnthropicProvider.chatStream, if_pos h]
  · intro env hkey hname
    rw [getProvider]
    have hstr : strOr env.LLM_PROVIDER "openai" = "openai" := by
      rw [strOr, hname]; rfl
    simp only [hstr]
    have htl : jsToLower "openai" = "openai" := by decide
    have hconf : (Provider.openai (OpenAIProvider.init env)).isConfigured = false := by
      simp [Provider.isConfigured, OpenAIProvider.isConfigured,
        OpenAIProvider.init, hkey]
    simp [htl, hconf, Provider.getName]

/-- Witness for C3 amended at a concrete unconfigured state and environment. -/
theorem c3_unconfigured_fail_fast_amended_witness :
    OpenAIProvider.chatStream { client := false, defaultModel := "gpt-4o-mini" }
      { messages := [{ role := "user", content := "Hello" }] } []
    = (Except.error (LLMError.apiError
        "OpenAI API key not configured. Set OPENAI_API_KEY environment variable."
        "OpenAI" none), false)
    ∧ getProvider {} = Except.error (LLMError.providerError
        "OpenAI provider is not configured. Please set the required API key environment variable.") :=
  ⟨c3_unconfigured_fail_fast_amended.2.1 _ _ _ rfl,
   c3_unconfigured_fail_fast_amended.2.2.2.2 {} rfl rfl⟩

/-- A persisted Chat row. -/
structure DBChat where
  id : String
  userId : Option String := none
  title : Option String := none
  updatedAt : Nat := 0
deriving DecidableEq, Repr

/-- A persisted Message row. -/
structure DBMessage where
  chatId : String
  role : Role
  content : String
  tokens : Option Nat := none
deriving DecidableEq, Repr

/-- The store owned by the storage collaborator: chat rows and message rows in
insertion order. -/
structure DBState where
  chats : List DBChat := []
  messages : List DBMessage := []
deriving DecidableEq, Repr

/-- `prisma.chat.findUnique({ where: { id } })`. -/
def DBState.findChat (db : DBState) (id : String) : Option DBChat :=
  db.chats.find? (fun c => c.id = id)

/-- Errors thrown by chatRepo.ts. -/
inductive RepoError where
  | chatNotFound (chatId : String)
  | invalidMessageRole (role : String)
deriving DecidableEq, Repr

/-- `getOrCreateChat` from src/lib/db/chatRepo.ts: with a truthy `chatId` it
looks the chat up and throws `ChatNotFoundError` when absent; only with no
(or falsy) `chatId` does it create a fresh chat (whose generated id is the
`freshId` parameter). Returns the chat and the store afterwards. -/
def getOrCreateChat (chatId : Option String) (userId title : Option String)
    (freshId : String) (db : DBState) : Except RepoError (DBChat × DBState) :=
  if strTruthy chatId then
    match db.findChat (chatId.getD "") with
    | some c => Except.ok (c, db)
    | none => Except.error (RepoError.chatNotFound (chatId.getD ""))
  else
    let c : DBChat := { id := freshId, userId := userId, title := title }
    Except.ok (c, { db with chats := db.chats ++ [c] })

/-- The find-or-create step inside the route's persistence transaction
(`collectAndSaveResponse`, part of POST /api/chat): look the chat up by id and
create it — with the first 100 characters of the user message as title — only
when absent. -/
def routeFindOrCreateChat (chatId : String) (userId : Option String)
    (userMessageContent : String) (db : DBState) : DBState :=
  match db.findChat chatId with
  | some _ => db
  | none =>
    { db with chats := db.chats ++
        [{ id := chatId, userId := userId
           title := some (userMessageContent.take 100) }] }

/-- C2 counterexample: the repository's get-or-create operation does not
create a missing conversation — called with conversation id "c1" on an empty
store it throws `ChatNotFoundError` instead of creating the chat. -/
theorem c2_getOrCreateChat_counterexample :
    getOrCreateChat (some "c1") none none "fresh-id" {} =
      Except.error (RepoError.chatNotFound "c1") := by
  rfl

/-- C2 amended: `getOrCreateChat` returns the existing conversation when the
given id exists, throws `ChatNotFoundError` when an id is given but absent,
and creates a fresh chat only when no id is supplied; the lazy
create-on-first-reference behaviour (title = user message truncated to 100
characters) lives in the route's persistence transaction, whose find-or-create
step is idempotent: a second call with the same id creates nothing and leaves
the store unmodified. -/
theorem c2_get_or_create_amended :
    (∀ (cid : String) (uid t : Option String) (fid : String) (db : DBState) c,
      cid ≠ "" → db.findChat cid = some c →
      getOrCreateChat (some cid) uid t fid db = Except.ok (c, db))
    ∧ (∀ (cid : String) (uid t : Option String) (fid : String) (db : DBState),
        cid ≠ "" → db.findChat cid = none →
        getOrCreateChat (some cid) uid t fid db =
          Except.error (RepoError.chatNotFound cid))
    ∧ (∀ (uid t : Option String) (fid : String) (db : DBState),
        getOrCreateChat none uid t fid db =
          Except.ok ({ id := fid, userId := uid, title := t },
            { db with chats := db.chats ++ [{ id := fid, userId := uid, title := t }] }))
    ∧ (∀ (cid : String) (uid : Option String) (content : String) (db : DBState),
        db.findChat cid = none →
        (routeFindOrCreateChat cid uid content db).findChat cid =
          some { id := cid, userId := uid, title := some (content.take 100) })
    ∧ (∀ (cid : String) (uid : Option String) (content : String) (db : DBState),
        routeFindOrCreateChat cid uid content
          (routeFindOrCreateChat cid uid content db) =
          routeFindOrCreateChat cid uid content db) := by
  refine ⟨?_, ?_, ?_, ?_, ?_⟩
  · intro cid uid t fid db c hcid hfind
    rw [getOrCreateChat]
    have : strTruthy (some cid) = true := by simp [strTruthy, hcid]
    rw [if_pos this]
    simp [hfind]
  · intro cid uid t fid db hcid hfind
    rw [getOrCreateChat]
    have : strTruthy (some cid) = true := by simp [strTruthy, hcid]
    rw [if_pos this]
    simp [hfind]
  · intro uid t fid db
    rw [getOrCreateChat]
    rfl
  · intro cid uid content db hfind
    rw [routeFindOrCreateChat, hfind]
    unfold DBState.findChat at hfind ⊢
    simp only [List.find?_append, hfind]
    simp
  · intro cid uid content db
    cases hfind : db.findChat cid with
    | some c => simp [routeFindOrCreateChat, hfind]
    | none =>
      have h2 : (routeFindOrCreateChat cid uid content db).findChat cid =
          some { id := cid, userId := uid, title := some (content.take 100) } := by
        rw [routeFindOrCreateChat, hfind]
        unfold DBState.findChat at hfind ⊢
        simp only [List.find?_append, hfind]
        simp
      conv in routeFindOrCreateChat cid uid content (routeFindOrCreateChat cid uid content db) =>
        rw [routeFindOrCreateChat, h2]

/-- Witness for C2 amended at concrete inputs: a second find-or-create with
the same id is a no-op, and the repository lookup path returns the stored
chat unchanged. -/
theorem c2_get_or_create_amended_witness :
    (routeFindOrCreateChat "c1" none "hi"
      (routeFindOrCreateChat "c1" none "hi" {}) =
      routeFindOrCreateChat "c1" none "hi" {})
    ∧ getOrCreateChat (some "c1") none none "f"
        { chats := [{ id := "c1" }], messages := [] } =
        Except.ok ({ id := "c1" }, { chats := [{ id := "c1" }], messages := [] }) :=
  ⟨c2_get_or_create_amended.2.2.2.2 "c1" none "hi" {},
   c2_get_or_create_amended.1 "c1" none none "f"
     { chats := [{ id := "c1" }], messages := [] } { id := "c1" }
     (by decide) (by rfl)⟩

/-- Mutable accumulator of `collectAndSaveResponse`'s read loop. -/
structure CollectAcc where
  assistantContent : String
  completionTokens : Nat
  finishReason : Option FinishReason
deriving DecidableEq, Repr

/-- One iteration of the collector's read loop: a final chunk records
`usage?.completionTokens || 0` and `finishReason || null`; a content chunk is
appended to the accumulated text. -/
def collectStep (acc : CollectAcc) (c : StreamChunk) : CollectAcc :=
  if c.done then
    { acc with
      completionTokens :=
        match c.usage with
        | some u => u.completionTokens
        | none => 0
      finishReason := c.finishReason }
  else { acc with assistantContent := acc.assistantContent ++ c.content }

/-- The collector's read loop over the whole branch. -/
def collectChunks (chunks : List StreamChunk) : CollectAcc :=
  chunks.foldl collectStep
    { assistantContent := "", completionTokens := 0, finishReason := none }

/-- The four effects of the persistence transaction, in source order. -/
inductive TxStep where
  | getOrCreate
  | saveUserMessage
  | saveAssistantMessage
  | touchChat
deriving DecidableEq, Repr

/-- The `prisma.$transaction` callback of `collectAndSaveResponse`: find or
create the chat, append the user message with `tokens: null`, append the
assistant message with the accumulated content and completion-token count,
then advance the chat's `updatedAt`. `fails` injects a storage failure
(a throw) at any of the four effects. -/
def collectTxBody (chatId : String) (userId : Option String)
    (userContent assistantContent : String) (completionTokens : Nat)
    (now : Nat) (fails : TxStep → Bool) (db : DBState) : Except Unit DBState := do
  let db1 : DBState ←
    if fails TxStep.getOrCreate then Except.error ()
    else Except.ok (routeFindOrCreateChat chatId userId userContent db)
  let db2 : DBState ←
    if fails TxStep.saveUserMessage then Except.error ()
    else Except.ok { db1 with messages := db1.messages ++
      [({ chatId := chatId, role := Role.user, content := userContent
          tokens := none } : DBMessage)] }
  let db3 : DBState ←
    if fails TxStep.saveAssistantMessage then Except.error ()
    else Except.ok { db2 with messages := db2.messages ++
      [({ chatId := chatId, role := Role.assistant, content := assistantContent
          tokens := some completionTokens } : DBMessage)] }
  if fails TxStep.touchChat then Except.error ()
  else Except.ok { db3 with chats := db3.chats.map fun c =>
    if c.id = chatId then { c with updatedAt := now } else c }

/-- Prisma interactive `$transaction`: the callback's effects commit
atomically, rolling the store back when the callback throws (the storage
collaborator's documented transactional guarantee, which the spec assumes).
Returns the store afterwards and whether the commit succeeded. -/
def prismaTransaction (body : DBState → Except Unit DBState) (db : DBState) :
    DBState × Bool :=
  match body db with
  | Except.ok db2 => (db2, true)
  | Except.error _ => (db, false)

/-- `collectAndSaveResponse`: drain the collector branch, then run the
four-effect transaction; a failure is rethrown to the route's `.catch`
(returned here as the logged error message) and never reaches the caller. -/
def collectAndSaveResponse (chunks : List StreamChunk) (chatId : String)
    (userId : Option String) (userMessageContent : String)
    (fails : TxStep → Bool) (now : Nat) (db : DBState) :
    DBState × Option String :=
  match prismaTransaction
      (collectTxBody chatId userId userMessageContent
        (collectChunks chunks).assistantContent
        (collectChunks chunks).completionTokens now fails) db with
  | (db2, true) => (db2, none)
  | (db2, false) => (db2, some "Error collecting and saving response")

/-- Concatenation of a list of strings in order. -/
def joinContents : List String → String
  | [] => ""
  | s :: l => s ++ joinContents l

lemma foldl_collectStep_content (chunks : List StreamChunk) (acc : CollectAcc) :
    (chunks.foldl collectStep acc).assistantContent
      = acc.assistantContent ++
        joinContents ((chunks.filter fun c => !c.done).map StreamChunk.content) := by
  induction chunks generalizing acc with
  | nil => simp [joinContents]
  | cons c l ih =>
    by_cases h : c.done
    · simp only [List.foldl, List.filter]
      rw [ih]
      simp [collectStep, h]
    · simp only [List.foldl, List.filter]
      rw [ih]
      simp [collectStep, h, joinContents, String.append_assoc]

lemma foldl_collectStep_tokens_nodone (l : List StreamChunk) (acc : CollectAcc)
    (h : ∀ c ∈ l, c.done = false) :
    (l.foldl collectStep acc).completionTokens = acc.completionTokens := by
  induction l generalizing acc with
  | nil => rfl
  | cons c l ih =>
    simp only [List.foldl]
    rw [ih _ (fun x hx => h x (List.mem_cons_of_mem _ hx))]
    simp [collectStep, h c (List.mem_cons_self _ _)]

lemma routeFindOrCreateChat_messages (cid : String) (uid : Option String)
    (content : String) (db : DBState) :
    (routeFindOrCreateChat cid uid content db).messages = db.messages := by
  rw [routeFindOrCreateChat]
  cases db.findChat cid <;> rfl

lemma routeFindOrCreateChat_findChat (cid : String) (uid : Option String)
    (content : String) (db : DBState) :
    ∃ c, (routeFindOrCreateChat cid uid content db).findChat cid = some c := by
  rw [routeFindOrCreateChat]
  cases hfind : db.findChat cid with
  | some c => exact ⟨c, hfind⟩
  | none =>
    refine ⟨{ id := cid, userId := uid, title := some (content.take 100)
              updatedAt := 0 }, ?_⟩
    unfold DBState.findChat at hfind ⊢
    simp only [List.find?_append, hfind]
    simp

lemma find?_touch (l : List DBChat) (cid : String) (now : Nat) :
    (l.map fun c => if c.id = cid then { c with updatedAt := now } else c).find?
        (fun c => c.id = cid)
      = (l.find? (fun c => c.id = cid)).map
          fun c => { c with updatedAt := now } := by
  induction l with
  | nil => rfl
  | cons a l ih =>
    simp only [List.map_cons]
    by_cases h : a.id = cid
    · simp [List.find?, h]
    · simp [List.find?, h, ih]

/-- The no-failure run of the transaction body, in closed form. -/
lemma collectTxBody_ok (cid : String) (uid : Option String)
    (ucontent acontent : String) (ctokens now : Nat) (db : DBState) :
    collectTxBody cid uid ucontent acontent ctokens now (fun _ => false) db
      = Except.ok
          { chats := (routeFindOrCreateChat cid uid ucontent db).chats.map
              fun c => if c.id = cid then { c with updatedAt := now } else c
            messages := (routeFindOrCreateChat cid uid ucontent db).messages ++
              [{ chatId := cid, role := Role.user, content := ucontent
                 tokens := none },
               { chatId := cid, role := Role.assistant, content := acontent
                 tokens := some ctokens }] } := by
  simp [collectTxBody, Bind.bind, Except.bind, List.append_assoc]

/-- Any injected failure makes the transaction body throw. -/
lemma collectTxBody_fails (cid : String) (uid : Option String)
    (ucontent acontent : String) (ctokens now : Nat) (fails : TxStep → Bool)
    (db : DBState) (s : TxStep) (hs : fails s = true) :
    collectTxBody cid uid ucontent acontent ctokens now fails db
      = Except.error () := by
  by_cases h1 : fails TxStep.getOrCreate
  · simp [collectTxBody, h1, Bind.bind, Except.bind]
  · by_cases h2 : fails TxStep.saveUserMessage
    · simp [collectTxBody, h1, h2, Bind.bind, Except.bind]
    · by_cases h3 : fails TxStep.saveAssistantMessage
      · simp [collectTxBody, h1, h2, h3, Bind.bind, Except.bind]
      · by_cases h4 : fails TxStep.touchChat
        · simp [collectTxBody, h1, h2, h3, h4, Bind.bind, Except.bind]
        · exfalso
          cases s <;> simp_all

lemma collectChunks_content (chunks : List StreamChunk) :
    (collectChunks chunks).assistantContent
      = joinContents ((chunks.filter fun c => !c.done).map StreamChunk.content) := by
  rw [collectChunks, foldl_collectStep_content]
  rfl

/-- C4: with no storage failure, the text persisted as the assistant message's
content is exactly the concatenation, in emission order, of the `content` of
all non-final chunks the persistence collector read; the user and assistant
rows are appended after the pre-existing messages and no error escapes. -/
theorem c4_collector_persists_concatenation
    (chunks : List StreamChunk) (cid : String) (uid : Option String)
    (ucontent : String) (now : Nat) (db : DBState) :
    (collectAndSaveResponse chunks cid uid ucontent (fun _ => false) now db).1.messages
      = db.messages ++
        [{ chatId := cid, role := Role.user, content := ucontent, tokens := none },
         { chatId := cid, role := Role.assistant
           content :=
             joinContents ((chunks.filter fun c => !c.done).map StreamChunk.content)
           tokens := some (collectChunks chunks).completionTokens }]
    ∧ (collectAndSaveResponse chunks cid uid ucontent (fun _ => false) now db).2
        = none := by
  unfold collectAndSaveResponse prismaTransaction
  rw [collectTxBody_ok]
  constructor
  · simp [routeFindOrCreateChat_messages, collectChunks_content]
  · rfl

/-- C7: the persistence commit appends the user row before the assistant row
and creates the conversation before touching its `updatedAt` to the commit
time (success shape, first conjunct), and is all-or-nothing: a storage
failure injected at any of the four effects leaves the store exactly as it
was and surfaces only as the logged error string (second conjunct). -/
theorem c7_transaction_ordered_atomic :
    (∀ (chunks : List StreamChunk) (cid : String) (uid : Option String)
        (ucontent : String) (now : Nat) (db : DBState),
      (collectAndSaveResponse chunks cid uid ucontent (fun _ => false) now db).2
          = none
      ∧ (collectAndSaveResponse chunks cid uid ucontent (fun _ => false) now db).1.messages
          = db.messages ++
            [{ chatId := cid, role := Role.user, content := ucontent, tokens := none },
             { chatId := cid, role := Role.assistant
               content := (collectChunks chunks).assistantContent
               tokens := some (collectChunks chunks).completionTokens }]
      ∧ ∃ c, (collectAndSaveResponse chunks cid uid ucontent (fun _ => false) now db).1.findChat cid
            = some c ∧ c.updatedAt = now)
    ∧ (∀ (chunks : List StreamChunk) (cid : String) (uid : Option String)
        (ucontent : String) (fails : TxStep → Bool) (now : Nat) (db : DBState)
        (s : TxStep), fails s = true →
        collectAndSaveResponse chunks cid uid ucontent fails now db
          = (db, some "Error collecting and saving response")) := by
  constructor
  · intro chunks cid uid ucontent now db
    unfold collectAndSaveResponse prismaTransaction
    rw [collectTxBody_ok]
    refine ⟨rfl, by simp [routeFindOrCreateChat_messages], ?_⟩
    obtain ⟨c, hc⟩ := routeFindOrCreateChat_findChat cid uid ucontent db
    refine ⟨{ c with updatedAt := now }, ?_, rfl⟩
    show (List.find? _ _) = _
    rw [find?_touch]
    unfold DBState.findChat at hc
    rw [hc]
    rfl
  · intro chunks cid uid ucontent fails now db s hs
    unfold collectAndSaveResponse prismaTransaction
    rw [collectTxBody_fails _ _ _ _ _ _ _ _ s hs]

/-- Witness for C7 at concrete inputs: the no-failure run commits all four
effects, and a failure injected at the assistant-message append leaves an
empty store untouched. -/
theorem c7_transaction_ordered_atomic_witness :
    ((collectAndSaveResponse [] "c1" none "hi" (fun _ => false) 5 {}).2 = none)
    ∧ collectAndSaveResponse [] "c1" none "hi"
        (fun s => decide (s = TxStep.saveAssistantMessage)) 5 {}
        = ({}, some "Error collecting and saving response") :=
  ⟨(c7_transaction_ordered_atomic.1 [] "c1" none "hi" 5 {}).1,
   c7_transaction_ordered_atomic.2 [] "c1" none "hi" _ 5 {}
     TxStep.saveAssistantMessage (by decide)⟩

/-- C10: for a generation whose chunk sequence ends in its single final chunk,
the persisted user message always carries a `null` token count, and the
persisted assistant message's token count is the final chunk's
`completionTokens` when the final chunk carries usage and `0` when it does
not. -/
theorem c10_persisted_token_counts
    (chunks : List StreamChunk) (last : StreamChunk) (cid : String)
    (uid : Option String) (ucontent : String) (now : Nat) (db : DBState)
    (hlast : chunks.getLast? = some last)
    (hdone : last.done = true) :
    (collectAndSaveResponse chunks cid uid ucontent (fun _ => false) now db).1.messages
      = db.messages ++
        [{ chatId := cid, role := Role.user, content := ucontent, tokens := none },
         { chatId := cid, role := Role.assistant
           content := (collectChunks chunks).assistantContent
           tokens := some (match last.usage with
                           | some u => u.completionTokens
                           | none => 0) }] := by
  have hne : chunks ≠ [] := by
    intro h
    rw [h] at hlast
    cases hlast
  have hsplit : chunks.dropLast ++ [chunks.getLast hne] = chunks :=
    List.dropLast_append_getLast hne
  have hlast2 : chunks.getLast hne = last := by
    have := List.getLast?_eq_getLast chunks hne
    rw [hlast] at this
    exact (Option.some_injective _ this.symm)
  have htok : (collectChunks chunks).completionTokens
      = (match last.usage with
         | some u => u.completionTokens
         | none => 0) := by
    rw [collectChunks, ← hsplit, List.foldl_append, hlast2]
    simp only [List.foldl]
    rw [collectStep, if_pos hdone]
  have hmain := c4_collector_persists_concatenation chunks cid uid ucontent now db
  rw [hmain.1, collectChunks_content, htok]

/-- Witness for C10 at the spec's example generation `["He","llo"]` followed
by a final chunk carrying usage. -/
theorem c10_persisted_token_counts_witness :
    (collectAndSaveResponse
      [{ content := "He", done := false },
       { content := "llo", done := false },
       { content := "", done := true
         usage := some { promptTokens := 1, completionTokens := 2, totalTokens := 3 }
         finishReason := some FinishReason.stop }]
      "c1" none "hi" (fun _ => false) 5 {}).1.messages
      = [{ chatId := "c1", role := Role.user, content := "hi", tokens := none },
         { chatId := "c1", role := Role.assistant, content := "Hello"
           tokens := some 2 }] := by
  have h := c10_persisted_token_counts
    [{ content := "He", done := false },
     { content := "llo", done := false },
     { content := "", done := true
       usage := some { promptTokens := 1, completionTokens := 2, totalTokens := 3 }
       finishReason := some FinishReason.stop }]
    { content := "", done := true
      usage := some { promptTokens := 1, completionTokens := 2, totalTokens := 3 }
      finishReason := some FinishReason.stop }
    "c1" none "hi" 5 {} (by rfl) rfl
  rw [h]
  rfl

/-- The JSON body of a POST /api/chat request. -/
structure ChatRequestBody where
  chatId : String
  userId : Option String := none
  system : Option String := none
  messages : List MsgInput
  temperature : Option ℚ := none
  maxTokens : Option Int := none
  model : Option String := none
deriving DecidableEq, Repr

/-- The object literal POST hands to `ChatSchema.parse` (with `stream: true`
forced on). -/
def ChatRequestBody.toChatInput (b : ChatRequestBody) : ChatInput :=
  { system := b.system
    messages := b.messages
    stream := some true
    temperature := b.temperature
    maxTokens := b.maxTokens
    model := b.model }

/-- An already-validated request rendered back to schema input: both the
index-module `chatStream` wrapper (`{ ...request, stream: true }`) and the
adapters re-run `ChatSchema.parse` on the validated request object. -/
def ChatRequest.toInput (r : ChatRequest) : ChatInput :=
  { system := r.system
    messages := r.messages.map fun m =>
      { role := m.role.toString, content := m.content }
    stream := some true
    temperature := some r.temperature
    maxTokens := r.maxTokens
    model := r.model }

/-- `provider.chatStream(...)` dispatch; the backend traffic of the provider
that is actually selected is the corresponding `bk` argument. -/
def Provider.chatStreamCall (p : Provider) (input : ChatInput)
    (bkO : List OpenAIStreamChunk)
    (bkA : List AnthropicEvent × AnthropicFinalMessage) :
    Except LLMError (List StreamChunk) × Bool :=
  match p with
  | Provider.openai st => OpenAIProvider.chatStream st input bkO
  | Provider.anthropic st => AnthropicProvider.chatStream st input bkA.1 bkA.2

/-- The chunk sequence the selected adapter's producer emits. -/
def Provider.streamOutput (p : Provider) (bkO : List OpenAIStreamChunk)
    (bkA : List AnthropicEvent × AnthropicFinalMessage) : List StreamChunk :=
  match p with
  | Provider.openai _ => openAIStreamOutput bkO
  | Provider.anthropic _ => anthropicStreamOutput bkA.1 bkA.2

/-- `chatStream` from src/lib/llm/index.ts: re-validate with `stream: true`,
resolve the provider, then open the provider's stream (which itself
re-validates). The `Bool` records whether the upstream network call was
made. -/
def chatStreamPipeline (env : Env) (r : ChatRequest)
    (bkO : List OpenAIStreamChunk)
    (bkA : List AnthropicEvent × AnthropicFinalMessage) :
    Except LLMError (List StreamChunk) × Bool :=
  match chatSchemaParse (ChatRequest.toInput r) with
  | Except.error issues => (Except.error (LLMError.zodError issues), false)
  | Except.ok validated =>
    match getProvider env with
    | Except.error e => (Except.error e, false)
    | Except.ok p => p.chatStreamCall (ChatRequest.toInput validated) bkO bkA

/-- HTTP status the route's catch clause maps each thrown error to. -/
def errorStatus : LLMError → Nat
  | LLMError.zodError _ => 400
  | LLMError.providerError _ => 503
  | LLMError.apiError _ _ sc => sc.getD 500

/-- Observable outcome of one POST /api/chat execution: response status, the
chunk sequences read by the caller-facing branch and by the collector branch
of the tee, how many upstream adapter calls were made, the store afterwards,
and the persistence error that was only logged (never surfaced). -/
structure PostResult where
  status : Nat
  clientChunks : List StreamChunk
  collectorChunks : List StreamChunk
  adapterCalls : Nat
  dbAfter : DBState
  loggedError : Option String
deriving DecidableEq, Repr

/-- Where one POST execution ends up before the persistence step: rejected
with an error response, or streaming the produced chunk sequence (with the
triggering user message's content, to be persisted). `calls` counts upstream
network calls made. -/
inductive RouteOutcome where
  | rejected (status : Nat) (calls : Nat)
  | streaming (produced : List StreamChunk) (userContent : String) (calls : Nat)
deriving DecidableEq, Repr

/-- The branching of `POST /api/chat` up to the tee: validate with
`ChatSchema`, reject unless the last message is from the user, resolve the
provider (`getCurrentProviderName`), open the LLM stream. Thrown errors map
to their status via the route's catch clause. -/
def postOutcome (body : ChatRequestBody) (env : Env)
    (bkO : List OpenAIStreamChunk)
    (bkA : List AnthropicEvent × AnthropicFinalMessage) : RouteOutcome :=
  match chatSchemaParse body.toChatInput with
  | Except.error _ => RouteOutcome.rejected 400 0
  | Except.ok validated =>
    match validated.messages.getLast? with
    | none => RouteOutcome.rejected 400 0
    | some userMessage =>
      if userMessage.role = Role.user then
        match getProvider env with
        | Except.error e => RouteOutcome.rejected (errorStatus e) 0
        | Except.ok _ =>
          match chatStreamPipeline env validated bkO bkA with
          | (Except.error e, called) =>
            RouteOutcome.rejected (errorStatus e) (if called then 1 else 0)
          | (Except.ok produced, called) =>
            RouteOutcome.streaming produced userMessage.content
              (if called then 1 else 0)
      else RouteOutcome.rejected 400 0

/-- `POST /api/chat` end to end: on the streaming outcome the produced stream
is `tee()`d — the platform `ReadableStream.tee` delivers every chunk of the
one source stream to both branches in order — one branch is returned to the
caller as the 200 response and the other is drained by
`collectAndSaveResponse`, whose rejection the `.catch` only logs. -/
def post (body : ChatRequestBody) (env : Env) (bkO : List OpenAIStreamChunk)
    (bkA : List AnthropicEvent × AnthropicFinalMessage) (fails : TxStep → Bool)
    (now : Nat) (db : DBState) : PostResult :=
  match postOutcome body env bkO bkA with
  | RouteOutcome.rejected s calls =>
    { status := s, clientChunks := [], collectorChunks := []
      adapterCalls := calls, dbAfter := db, loggedError := none }
  | RouteOutcome.streaming produced userContent calls =>
    { status := 200
      clientChunks := produced
      collectorChunks := produced
      adapterCalls := calls
      dbAfter := (collectAndSaveResponse produced body.chatId body.userId
        userContent fails now db).1
      loggedError := (collectAndSaveResponse produced body.chatId body.userId
        userContent fails now db).2 }

lemma parseMessages_roundTrip (msgs : List Message) :
    parseMessages (msgs.map fun m =>
      ({ role := m.role.toString, content := m.content } : MsgInput)) = some msgs := by
  induction msgs with
  | nil => rfl
  | cons m l ih => simp [parseMessages, parseRole_toString, ih]

lemma parseMessages_length (ms : List MsgInput) (msgs : List Message)
    (h : parseMessages ms = some msgs) : msgs.length = ms.length := by
  induction ms generalizing msgs with
  | nil =>
    cases h
    rfl
  | cons m l ih =>
    unfold parseMessages at h
    cases hr : parseRole m.role with
    | none => rw [hr] at h; cases h
    | some r =>
      cases hp : parseMessages l with
      | none => rw [hr, hp] at h; cases h
      | some rest =>
        rw [hr, hp] at h
        cases h
        simp [ih rest hp]

lemma chatSchemaParse_ok_shape (i : ChatInput) (r : ChatRequest)
    (h : chatSchemaParse i = Except.ok r) :
    parseMessages i.messages = some r.messages ∧
    r.temperature = i.temperature.getD (7 / 10) ∧
    r.maxTokens = i.maxTokens ∧ chatIssues i = [] := by
  unfold chatSchemaParse at h
  cases hpm : parseMessages i.messages with
  | none => rw [hpm] at h; cases h
  | some msgs =>
    cases hiss : chatIssues i with
    | cons a l => rw [hpm, hiss] at h; cases h
    | nil =>
      rw [hpm, hiss] at h
      cases h
      exact ⟨rfl, rfl, rfl, rfl⟩

lemma chatSchemaParse_ok_bounds (i : ChatInput) (r : ChatRequest)
    (h : chatSchemaParse i = Except.ok r) :
    r.messages ≠ [] ∧ 0 ≤ r.temperature ∧ r.temperature ≤ 2 ∧
    ∀ n, r.maxTokens = some n → 0 < n := by
  obtain ⟨hpm, htemp, hmax, hiss⟩ := chatSchemaParse_ok_shape i r h
  obtain ⟨hne, _, htb, hmb⟩ := (chatIssues_nil_iff i).mp hiss
  refine ⟨?_, ?_, ?_, ?_⟩
  · intro hempty
    apply hne
    have := parseMessages_length i.messages r.messages hpm
    rw [hempty] at this
    cases hi : i.messages with
    | nil => rfl
    | cons a l => rw [hi] at this; cases this
  · cases ht : i.temperature with
    | none => rw [htemp, ht]; norm_num
    | some t => rw [htemp, ht]; exact (htb t ht).1
  · cases ht : i.temperature with
    | none => rw [htemp, ht]; norm_num
    | some t => rw [htemp, ht]; exact (htb t ht).2
  · intro n hn
    rw [hmax] at hn
    exact hmb n hn

lemma chatSchemaParse_toInput (r : ChatRequest) (hne : r.messages ≠ [])
    (h0 : 0 ≤ r.temperature) (h2 : r.temperature ≤ 2)
    (hmax : ∀ n, r.maxTokens = some n → 0 < n) :
    chatSchemaParse (ChatRequest.toInput r)
      = Except.ok { r with stream := true } := by
  have hpm : parseMessages (ChatRequest.toInput r).messages = some r.messages :=
    parseMessages_roundTrip r.messages
  have hiss : chatIssues (ChatRequest.toInput r) = [] := by
    rw [chatIssues_nil_iff]
    refine ⟨?_, ?_, ?_, ?_⟩
    · simp [ChatRequest.toInput, List.isEmpty_iff, hne]
    · intro m hm
      simp only [ChatRequest.toInput, List.mem_map] at hm
      obtain ⟨m0, _, rfl⟩ := hm
      simp [parseRole_toString]
    · intro t ht
      simp only [ChatRequest.toInput, Option.some.injEq] at ht
      rw [← ht]
      exact ⟨h0, h2⟩
    · intro n hn
      exact hmax n hn
  unfold chatSchemaParse
  rw [hpm, hiss]
  rfl

lemma getProvider_ok_configured (env : Env) (p : Provider)
    (h : getProvider env = Except.ok p) : p.isConfigured = true := by
  simp only [getProvider] at h
  split at h
  · cases h
  · split at h
    · cases h
      assumption
    · cases h

lemma chatStreamCall_ok (p : Provider) (r2 : ChatRequest)
    (bkO : List OpenAIStreamChunk)
    (bkA : List AnthropicEvent × AnthropicFinalMessage)
    (hconf : p.isConfigured = true)
    (hok : ∃ x, chatSchemaParse (ChatRequest.toInput r2) = Except.ok x) :
    p.chatStreamCall (ChatRequest.toInput r2) bkO bkA
      = (Except.ok (p.streamOutput bkO bkA), true) := by
  obtain ⟨x, hx⟩ := hok
  cases p with
  | openai st =>
    have hcl : st.client = true := hconf
    simp only [Provider.chatStreamCall, Provider.streamOutput,
      OpenAIProvider.chatStream, hcl, hx]
    rfl
  | anthropic st =>
    have hcl : st.client = true := by
      have h := hconf
      unfold Provider.isConfigured AnthropicProvider.isConfigured at h
      exact (Bool.and_eq_true_iff.mp h).2
    simp only [Provider.chatStreamCall, Provider.streamOutput,
      AnthropicProvider.chatStream, hcl, hx]
    rfl

lemma chatStreamPipeline_ok (env : Env) (r : ChatRequest) (p : Provider)
    (bkO : List OpenAIStreamChunk)
    (bkA : List AnthropicEvent × AnthropicFinalMessage)
    (hne : r.messages ≠ []) (h0 : 0 ≤ r.temperature) (h2 : r.temperature ≤ 2)
    (hmax : ∀ n, r.maxTokens = some n → 0 < n)
    (hp : getProvider env = Except.ok p) :
    chatStreamPipeline env r bkO bkA
      = (Except.ok (p.streamOutput bkO bkA), true) := by
  unfold chatStreamPipeline
  rw [chatSchemaParse_toInput r hne h0 h2 hmax, hp]
  exact chatStreamCall_ok p { r with stream := true } bkO bkA
    (getProvider_ok_configured env p hp)
    ⟨_, chatSchemaParse_toInput { r with stream := true } hne h0 h2 hmax⟩

/-- C5: on the streaming path, both branches of the tee — the caller-facing
stream and the collector's stream — receive exactly the chunk sequence the
selected adapter's producer emits, and the upstream adapter call is made
exactly once for the request. -/
theorem c5_tee_duplicates_single_upstream
    (body : ChatRequestBody) (env : Env) (bkO : List OpenAIStreamChunk)
    (bkA : List AnthropicEvent × AnthropicFinalMessage) (fails : TxStep → Bool)
    (now : Nat) (db : DBState) (r : ChatRequest) (m : Message) (p : Provider)
    (hparse : chatSchemaParse body.toChatInput = Except.ok r)
    (hlast : r.messages.getLast? = some m)
    (hrole : m.role = Role.user)
    (hprov : getProvider env = Except.ok p) :
    (post body env bkO bkA fails now db).clientChunks = p.streamOutput bkO bkA
    ∧ (post body env bkO bkA fails now db).collectorChunks
        = p.streamOutput bkO bkA
    ∧ (post body env bkO bkA fails now db).adapterCalls = 1 := by
  obtain ⟨hne, h0, h2, hmax⟩ := chatSchemaParse_ok_bounds _ _ hparse
  have hpipe := chatStreamPipeline_ok env r p bkO bkA hne h0 h2 hmax hprov
  unfold post postOutcome
  simp [hparse, hlast, hrole, hprov, hpipe]

/-- Witness for C5 at a concrete request against the configured OpenAI
adapter. -/
theorem c5_tee_duplicates_single_upstream_witness :
    (post { chatId := "c1", messages := [{ role := "user", content := "hi" }] }
      { OPENAI_API_KEY := some "sk-test" }
      [{ choice :=
           some { delta := { content := some "Hello" },
                  finish_reason := some FinishReason.stop },
         model := "gpt-4o-mini",
         usage := some { prompt_tokens := 1, completion_tokens := 2, total_tokens := 3 } }]
      ([], { model := "m", input_tokens := 0, output_tokens := 0 })
      (fun _ => false) 0 {}).adapterCalls = 1 :=
  (c5_tee_duplicates_single_upstream
    { chatId := "c1", messages := [{ role := "user", content := "hi" }] }
    { OPENAI_API_KEY := some "sk-test" }
    [{ choice :=
         some { delta := { content := some "Hello" },
                finish_reason := some FinishReason.stop },
       model := "gpt-4o-mini",
       usage := some { prompt_tokens := 1, completion_tokens := 2, total_tokens := 3 } }]
    ([], { model := "m", input_tokens := 0, output_tokens := 0 })
    (fun _ => false) 0 {}
    { system := none
      messages := [{ role := Role.user, content := "hi" }]
      stream := true, temperature := 7 / 10, maxTokens := none, model := none }
    { role := Role.user, content := "hi" }
    (Provider.openai { client := true, defaultModel := "gpt-4o-mini" })
    (by rfl) (by rfl) rfl (by rfl)).2.2

lemma openAIChatStream_error_not_called (st : OpenAIProviderState)
    (i : ChatInput) (bk : List OpenAIStreamChunk) (e : LLMError) (c : Bool)
    (h : OpenAIProvider.chatStream st i bk = (Except.error e, c)) : c = false := by
  unfold OpenAIProvider.chatStream at h
  by_cases hcl : st.client = false
  · rw [if_pos hcl] at h
    cases h
    rfl
  · rw [if_neg hcl] at h
    cases hp : chatSchemaParse i with
    | error issues => rw [hp] at h; cases h; rfl
    | ok x => rw [hp] at h; cases h

lemma anthropicChatStream_error_not_called (st : AnthropicProviderState)
    (i : ChatInput) (events : List AnthropicEvent) (fm : AnthropicFinalMessage)
    (e : LLMError) (c : Bool)
    (h : AnthropicProvider.chatStream st i events fm = (Except.error e, c)) :
    c = false := by
  unfold AnthropicProvider.chatStream at h
  by_cases hcl : st.client = false
  · rw [if_pos hcl] at h
    cases h
    rfl
  · rw [if_neg hcl] at h
    cases hp : chatSchemaParse i with
    | error issues => rw [hp] at h; cases h; rfl
    | ok x => rw [hp] at h; cases h

lemma chatStreamPipeline_error_not_called (env : Env) (r : ChatRequest)
    (bkO : List OpenAIStreamChunk)
    (bkA : List AnthropicEvent × AnthropicFinalMessage) (e : LLMError)
    (called : Bool)
    (h : chatStreamPipeline env r bkO bkA = (Except.error e, called)) :
    called = false := by
  unfold chatStreamPipeline at h
  cases hp : chatSchemaParse (ChatRequest.toInput r) with
  | error issues => rw [hp] at h; cases h; rfl
  | ok validated =>
    rw [hp] at h
    cases hprov : getProvider env with
    | error e2 => rw [hprov] at h; cases h; rfl
    | ok p =>
      rw [hprov] at h
      cases p with
      | openai st =>
        exact openAIChatStream_error_not_called st _ bkO e called h
      | anthropic st =>
        exact anthropicChatStream_error_not_called st _ bkA.1 bkA.2 e called h

lemma postOutcome_rejected_calls (body : ChatRequestBody) (env : Env)
    (bkO : List OpenAIStreamChunk)
    (bkA : List AnthropicEvent × AnthropicFinalMessage) (s calls : Nat)
    (h : postOutcome body env bkO bkA = RouteOutcome.rejected s calls) :
    calls = 0 := by
  unfold postOutcome at h
  cases hparse : chatSchemaParse body.toChatInput with
  | error e =>
    simp only [hparse] at h
    cases h
    rfl
  | ok validated =>
    simp only [hparse] at h
    cases hlast : validated.messages.getLast? with
    | none =>
      simp only [hlast] at h
      cases h
      rfl
    | some um =>
      simp only [hlast] at h
      by_cases hrole : um.role = Role.user
      · rw [if_pos hrole] at h
        cases hprov : getProvider env with
        | error e =>
          simp only [hprov] at h
          cases h
          rfl
        | ok p =>
          simp only [hprov] at h
          cases hpipe : chatStreamPipeline env validated bkO bkA with
          | mk res called =>
            cases res with
            | error e =>
              simp only [hpipe] at h
              cases h
              rw [chatStreamPipeline_error_not_called env validated bkO bkA
                e called hpipe]
              rfl
            | ok produced =>
              simp only [hpipe] at h
              cases h
      · rw [if_neg hrole] at h
        cases h
        rfl

/-- C6: persistence failure is invisible to the caller — the response status
and every byte of the caller-facing branch are identical whether or not the
storage collaborator throws — and when the streaming path was reached (the
one upstream call was made), an injected storage failure surfaces only as
the logged error string. -/
theorem c6_persistence_failure_invisible
    (body : ChatRequestBody) (env : Env) (bkO : List OpenAIStreamChunk)
    (bkA : List AnthropicEvent × AnthropicFinalMessage) (fails : TxStep → Bool)
    (now : Nat) (db : DBState) :
    ((post body env bkO bkA fails now db).status
        = (post body env bkO bkA (fun _ => false) now db).status)
    ∧ ((post body env bkO bkA fails now db).clientChunks
        = (post body env bkO bkA (fun _ => false) now db).clientChunks)
    ∧ (∀ s, fails s = true →
        (post body env bkO bkA fails now db).adapterCalls = 1 →
        (post body env bkO bkA fails now db).loggedError
          = some "Error collecting and saving response") := by
  unfold post
  cases hout : postOutcome body env bkO bkA with
  | rejected s calls =>
    refine ⟨rfl, rfl, ?_⟩
    intro s2 hs2 hcall
    have hc1 : calls = 1 := hcall
    rw [postOutcome_rejected_calls body env bkO bkA s calls hout] at hc1
    cases hc1
  | streaming produced ucontent calls =>
    refine ⟨rfl, rfl, ?_⟩
    intro s2 hs2 hcall
    show (collectAndSaveResponse produced body.chatId body.userId
      ucontent fails now db).2 = _
    unfold collectAndSaveResponse prismaTransaction
    rw [collectTxBody_fails _ _ _ _ _ _ _ _ s2 hs2]

/-- Witness for C6 at a concrete streaming request: injecting a failure at
every transaction step leaves the caller-facing chunks identical to the
no-failure run, and the failure shows up only in the log. -/
theorem c6_persistence_failure_invisible_witness :
    ((post { chatId := "c1"
             temperature := some 1
             messages := [{ role := "user", content := "hi" }] }
        { OPENAI_API_KEY := some "sk-test" } []
        ([], { model := "m", input_tokens := 0, output_tokens := 0 })
        (fun _ => true) 0 {}).clientChunks
      = (post { chatId := "c1"
                temperature := some 1
                messages := [{ role := "user", content := "hi" }] }
          { OPENAI_API_KEY := some "sk-test" } []
          ([], { model := "m", input_tokens := 0, output_tokens := 0 })
          (fun _ => false) 0 {}).clientChunks)
    ∧ ((post { chatId := "c1"
               temperature := some 1
               messages := [{ role := "user", content := "hi" }] }
        { OPENAI_API_KEY := some "sk-test" } []
        ([], { model := "m", input_tokens := 0, output_tokens := 0 })
        (fun _ => true) 0 {}).loggedError
      = some "Error collecting and saving response") :=
  ⟨(c6_persistence_failure_invisible
      { chatId := "c1"
        temperature := some 1
        messages := [{ role := "user", content := "hi" }] }
      { OPENAI_API_KEY := some "sk-test" } []
      ([], { model := "m", input_tokens := 0, output_tokens := 0 })
      (fun _ => true) 0 {}).2.1,
   (c6_persistence_failure_invisible
      { chatId := "c1"
        temperature := some 1
        messages := [{ role := "user", content := "hi" }] }
      { OPENAI_API_KEY := some "sk-test" } []
      ([], { model := "m", input_tokens := 0, output_tokens := 0 })
      (fun _ => true) 0 {}).2.2 TxStep.getOrCreate rfl (by decide)⟩

/-- C8: a request whose last message is not from the user is rejected with a
client error (400) without any upstream adapter call being made and without
touching the store. -/
theorem c8_nonuser_last_rejected_before_adapter
    (body : ChatRequestBody) (env : Env) (bkO : List OpenAIStreamChunk)
    (bkA : List AnthropicEvent × AnthropicFinalMessage) (fails : TxStep → Bool)
    (now : Nat) (db : DBState) (r : ChatRequest) (m : Message)
    (hparse : chatSchemaParse body.toChatInput = Except.ok r)
    (hlast : r.messages.getLast? = some m)
    (hrole : m.role ≠ Role.user) :
    (post body env bkO bkA fails now db).status = 400
    ∧ (post body env bkO bkA fails now db).adapterCalls = 0
    ∧ (post body env bkO bkA fails now db).dbAfter = db := by
  unfold post postOutcome
  simp [hparse, hlast, hrole]

/-- Witness for C8: a request ending in an assistant message is rejected with
status 400 and zero adapter calls. -/
theorem c8_nonuser_last_rejected_before_adapter_witness :
    (post { chatId := "c1"
            messages := [{ role := "user", content := "a" },
                         { role := "assistant", content := "b" }] }
      { OPENAI_API_KEY := some "sk-test" } []
      ([], { model := "m", input_tokens := 0, output_tokens := 0 })
      (fun _ => false) 0 {}).status = 400 :=
  (c8_nonuser_last_rejected_before_adapter
    { chatId := "c1"
      messages := [{ role := "user", content := "a" },
                   { role := "assistant", content := "b" }] }
    { OPENAI_API_KEY := some "sk-test" } []
    ([], { model := "m", input_tokens := 0, output_tokens := 0 })
    (fun _ => false) 0 {}
    { system := none
      messages := [{ role := Role.user, content := "a" },
                   { role := Role.assistant, content := "b" }]
      stream := true, temperature := 7 / 10, maxTokens := none, model := none }
    { role := Role.assistant, content := "b" }
    (by rfl) (by rfl) (by decide)).1

end ChatCanvas
